import Mathlib

/-!
Verification of the `LngLat` spherical-geodesy library (src/LngLat.js) against its
natural-language specification.

The JavaScript source is shallowly embedded over the real numbers:

* plain floating-point values are modelled as `ℝ`;
* the floating-point poison value NaN is modelled by `Option ℝ` (`none` = NaN) at the
  places where the source can actually produce it (input coercion, `Math.sqrt` of a
  negative number, `Math.asin` / `Math.acos` outside `[-1, 1]`, `0/0`);
* dynamically-typed constructor / method arguments are modelled by `JSVal`
  (number, string, `undefined`, or any other value);
* code paths that dereference the unbound identifier `trim` (a ReferenceError at
  run time) are modelled with `Except Unit`, `.error ()` being the thrown exception;
* JavaScript's `%` (`fmod`, truncated division) is `jsMod`, `Math.round` is `jsRound`
  (floor of `x + 1/2`), `Math.atan2` is `atan2`;
* numeric strings are parsed by an executable decimal-literal parser over `ℚ`
  (`jsToNumberQ` for whole-string `Number(...)` coercion, `parseFloatQ` for the
  longest-numeric-prefix semantics of `parseFloat`); hexadecimal and `Infinity`
  literal forms are outside the model.
-/

open scoped Classical

noncomputable section

/-- Source `Number.prototype.toRad`: degrees to radians, `this * Math.PI / 180`. -/
def toRad (d : ℝ) : ℝ := d * Real.pi / 180

/-- Source `Number.prototype.toDeg`: radians to degrees, `this * 180 / Math.PI`. -/
def toDeg (r : ℝ) : ℝ := r * 180 / Real.pi

/-- JavaScript's truncated conversion to integer (`Math.trunc`), used to model `%`. -/
def jsTrunc (z : ℝ) : ℤ := if 0 ≤ z then ⌊z⌋ else ⌈z⌉

/-- JavaScript's `%` operator on numbers: remainder with the sign of the dividend,
`x - y * trunc (x / y)`. -/
def jsMod (x y : ℝ) : ℝ := x - y * jsTrunc (x / y)

/-- Model of `Math.round`: rounds half away from zero for nonnegative argument; on the
nonnegative values the source feeds it, `Math.round x = ⌊x + 1/2⌋`. -/
def jsRound (x : ℝ) : ℤ := ⌊x + 1 / 2⌋

/-- Model of `Math.atan2 y x` with JavaScript conventions (`atan2 0 0 = 0`). -/
def atan2 (y x : ℝ) : ℝ :=
  if 0 < x then Real.arctan (y / x)
  else if x < 0 then
    (if 0 ≤ y then Real.arctan (y / x) + Real.pi else Real.arctan (y / x) - Real.pi)
  else if 0 < y then Real.pi / 2
  else if y < 0 then -(Real.pi / 2)
  else 0

/-- A string of `k` `'0'` characters (the zero-padding loops of `toPrecisionFixed`). -/
def zeroString (k : ℕ) : String := String.mk (List.replicate k '0')

/-- The string-assembly part of `Number.prototype.toPrecisionFixed` (source lines
433–441): `n = String(Math.round(numb * Math.pow(10, precision-scale)))`, then either
append trailing zeros and insert the decimal point at position `scale` (when
`scale > 0`) or prefix `"0."` and `-scale` leading zeros. `m` is the rounded mantissa,
`scale` the number of digits before the decimal point. -/
def tpfAssemble (scale m : ℤ) : String :=
  let n := m.toNat.repr
  if 0 < scale then
    let n2 := n ++ zeroString (scale.toNat - n.length)
    if scale < (n2.length : ℤ) then
      n2.take scale.toNat ++ "." ++ n2.drop scale.toNat
    else n2
  else "0." ++ zeroString (-scale).toNat ++ n

/-- Source `Number.prototype.toPrecisionFixed` on a non-NaN number (source lines 425–443):
zero maps to `"0."` followed by `precision` zeros (and no sign); otherwise the scale is
`Math.ceil(Math.log(|x|)*Math.LOG10E)`, the mantissa is
`Math.round(|x| * 10^(precision-scale))`, and the sign of a negative input is
prepended. -/
def toPrecisionFixedR (x : ℝ) (precision : ℕ) : String :=
  if |x| = 0 then "0." ++ zeroString precision
  else
    (if x < 0 then "-" else "") ++
      tpfAssemble ⌈Real.log |x| / Real.log 10⌉
        (jsRound (|x| * (10 : ℝ) ^ ((precision : ℤ) - ⌈Real.log |x| / Real.log 10⌉)))

/-- Source `Number.prototype.toPrecisionFixed` including the `isNaN` entry check
(`none` = NaN ↦ the literal string `"NaN"`). -/
def toPrecisionFixed (x : Option ℝ) (precision : ℕ) : String :=
  match x with
  | none => "NaN"
  | some v => toPrecisionFixedR v precision

/-- The `LngLat` point on the happy path: latitude and longitude in (finite) numeric
degrees, Earth radius in km, exactly the `_lat`/`_lon`/`_radius` fields of the source
constructor when all three inputs are plain numbers. -/
structure LngLat where
  _lon : ℝ
  _lat : ℝ
  _radius : ℝ

/-- Source `LngLat.prototype.distanceTo` (lines 46–62): haversine distance, scaled by
the receiver's `_radius`, formatted by `toPrecisionFixed` (default precision 4). -/
def LngLat.distanceTo (this point : LngLat) (precision : ℕ := 4) : String :=
  let R := this._radius
  let lat1 := toRad this._lat
  let lat2 := toRad point._lat
  let lon1 := toRad this._lon
  let lon2 := toRad point._lon
  let dLat := lat2 - lat1
  let dLon := lon2 - lon1
  let a := Real.sin (dLat / 2) * Real.sin (dLat / 2) +
    Real.cos lat1 * Real.cos lat2 * Real.sin (dLon / 2) * Real.sin (dLon / 2)
  let c := 2 * atan2 (Real.sqrt a) (Real.sqrt (1 - a))
  let d := R * c
  toPrecisionFixedR d precision

theorem log10_pos : (0 : ℝ) < Real.log 10 := Real.log_pos (by norm_num)

/-- The scale computed on source line 432, `Math.ceil(Math.log(numb)*Math.LOG10E)`,
equals `s` whenever `10^(s-1) < numb ≤ 10^s`. -/
theorem tpf_scale_eq (x : ℝ) (s : ℤ) (h1 : (10 : ℝ) ^ (s - 1) < x)
    (h2 : x ≤ (10 : ℝ) ^ s) : ⌈Real.log x / Real.log 10⌉ = s := by
  have hx : 0 < x := lt_trans (zpow_pos (by norm_num) _) h1
  rw [Int.ceil_eq_iff]
  constructor
  · rw [show ((s : ℝ) - 1) = ((s - 1 : ℤ) : ℝ) by push_cast; ring, lt_div_iff₀ log10_pos]
    have := Real.log_lt_log (zpow_pos (by norm_num) _) h1
    rwa [Real.log_zpow] at this
  · rw [div_le_iff₀ log10_pos]
    have := Real.log_le_log hx h2
    rwa [Real.log_zpow] at this

/-- Evaluation scheme for `toPrecisionFixedR` on a positive input with known
scale bracket and known rounded mantissa. -/
theorem tpfR_pos_eval (x : ℝ) (p : ℕ) (s m : ℤ) (out : String) (hx : 0 < x)
    (hs1 : (10 : ℝ) ^ (s - 1) < x) (hs2 : x ≤ (10 : ℝ) ^ s)
    (hm : ⌊x * (10 : ℝ) ^ ((p : ℤ) - s) + 1 / 2⌋ = m)
    (hout : tpfAssemble s m = out) :
    toPrecisionFixedR x p = out := by
  unfold toPrecisionFixedR
  rw [abs_of_pos hx, if_neg hx.ne', if_neg (not_lt.2 hx.le), tpf_scale_eq x s hs1 hs2]
  unfold jsRound
  rw [hm, hout]
  exact String.empty_append out

/-- The zero branch of `toPrecisionFixed` (source line 430): `"0."` followed by
`precision` zeros, with no sign. -/
theorem tpfR_zero (p : ℕ) : toPrecisionFixedR 0 p = "0." ++ zeroString p := by
  unfold toPrecisionFixedR
  rw [if_pos (by simp)]

/-- Any negative input's output starts with the sign `"-"`. -/
theorem tpfR_neg_sign (x : ℝ) (hx : x < 0) (p : ℕ) :
    ∃ t, toPrecisionFixedR x p = "-" ++ t := by
  unfold toPrecisionFixedR
  rw [if_neg (by simpa using hx.ne), if_pos hx]
  exact ⟨_, rfl⟩

/-- Evaluation of `toPrecisionFixed` at `π` with precision 4: the scale is 1 and the
mantissa rounds to 3142. -/
theorem tpfR_pi : toPrecisionFixedR Real.pi 4 = "3.142" := by
  apply tpfR_pos_eval _ _ 1 3142 _ Real.pi_pos
  · norm_num
    linarith [Real.pi_gt_three]
  · norm_num
    linarith [Real.pi_lt_four]
  · rw [show ((4 : ℕ) : ℤ) - 1 = 3 by norm_num, Int.floor_eq_iff]
    norm_num
    constructor
    · linarith [Real.pi_gt_d6]
    · linarith [Real.pi_lt_d6]
  · decide

/-- Claim C5 —
`toPrecisionFixed` matches the §8 literal vectors of the spec: `0` at precision 4 is
`"0.0000"`, `1234.5678` at precision 4 is `"1235"`, `0.012345` at precision 3 is
`"0.0123"`, every negative input's output starts with `"-"`, and NaN gives `"NaN"`
at every precision. -/
theorem toPrecisionFixed_spec_vectors :
    toPrecisionFixed (some 0) 4 = "0.0000" ∧
    toPrecisionFixed (some 1234.5678) 4 = "1235" ∧
    toPrecisionFixed (some 0.012345) 3 = "0.0123" ∧
    (∀ x : ℝ, x < 0 → ∀ p : ℕ, ∃ t, toPrecisionFixedR x p = "-" ++ t) ∧
    (∀ p : ℕ, toPrecisionFixed none p = "NaN") := by
  refine ⟨?_, ?_, ?_, tpfR_neg_sign, fun _ => rfl⟩
  · show toPrecisionFixedR 0 4 = "0.0000"
    rw [tpfR_zero]
    decide
  · show toPrecisionFixedR 1234.5678 4 = "1235"
    apply tpfR_pos_eval _ _ 4 1235 _ (by norm_num)
    · norm_num
    · norm_num
    · rw [show ((4 : ℕ) : ℤ) - 4 = 0 by norm_num, Int.floor_eq_iff]
      norm_num
    · decide
  · show toPrecisionFixedR 0.012345 3 = "0.0123"
    apply tpfR_pos_eval _ _ (-1) 123 _ (by norm_num)
    · norm_num
    · norm_num
    · rw [show ((3 : ℕ) : ℤ) - (-1) = 4 by norm_num, Int.floor_eq_iff]
      norm_num
    · decide

/-- Witness for the negative-sign conjunct of `toPrecisionFixed_spec_vectors` at the
concrete input `-1` with precision 2. -/
theorem toPrecisionFixed_spec_vectors_witness :
    (-1 : ℝ) < 0 ∧ ∃ t, toPrecisionFixedR (-1) 2 = "-" ++ t :=
  ⟨by norm_num, toPrecisionFixed_spec_vectors.2.2.2.1 (-1) (by norm_num) 2⟩

/-- Claim C1 (counterexample) — at the concrete point `(0, 0)` with the default
radius, `distanceTo` of the point to itself with the default precision 4 is NOT the
spec's literal `"0.000"`: the zero branch of `toPrecisionFixed` emits `"0."` followed
by `precision` zeros, i.e. `"0.0000"`. -/
theorem distanceTo_self_ne_claim_literal :
    (LngLat.mk 0 0 6371).distanceTo (LngLat.mk 0 0 6371) 4 ≠ "0.000" := by
  unfold LngLat.distanceTo
  simp only [sub_self, zero_div, Real.sin_zero, mul_zero, zero_mul, add_zero,
    Real.sqrt_zero, sub_zero, Real.sqrt_one]
  rw [show atan2 0 1 = 0 by unfold atan2; norm_num]
  simp only [mul_zero]
  rw [tpfR_zero]
  decide

/-- Claim C1 (amended) — for every point `p`, `p.distanceTo(p)` with the default
precision 4 returns `"0.0000"` (four zeros after the decimal point, not three). -/
theorem distanceTo_self_formats_zero (p : LngLat) : p.distanceTo p 4 = "0.0000" := by
  unfold LngLat.distanceTo
  simp only [sub_self, zero_div, Real.sin_zero, mul_zero, zero_mul, add_zero,
    Real.sqrt_zero, sub_zero, Real.sqrt_one]
  rw [show atan2 0 1 = 0 by unfold atan2; norm_num]
  simp only [mul_zero]
  rw [tpfR_zero]
  decide

theorem arctan_nonpos_of {z : ℝ} (hz : z ≤ 0) : Real.arctan z ≤ 0 := by
  have := Real.arctan_strictMono.monotone hz
  rwa [Real.arctan_zero] at this

theorem arctan_pos_of {z : ℝ} (hz : 0 < z) : 0 < Real.arctan z := by
  have := Real.arctan_strictMono hz
  rwa [Real.arctan_zero] at this

/-- The model `Math.atan2` always lands in `(-π, π]`. -/
theorem atan2_range (y x : ℝ) : -Real.pi < atan2 y x ∧ atan2 y x ≤ Real.pi := by
  have hpi := Real.pi_pos
  have h1 := Real.arctan_lt_pi_div_two (y / x)
  have h2 := Real.neg_pi_div_two_lt_arctan (y / x)
  unfold atan2
  split_ifs with hx hx' hy hy' hy''
  · constructor <;> linarith
  · have : y / x ≤ 0 := div_nonpos_iff.2 (Or.inl ⟨hy, hx'.le⟩)
    have := arctan_nonpos_of this
    constructor <;> linarith
  · have : 0 < y / x := div_pos_iff.2 (Or.inr ⟨lt_of_not_le hy, hx'⟩)
    have := arctan_pos_of this
    constructor <;> linarith
  · constructor <;> linarith
  · constructor <;> linarith
  · constructor <;> linarith

/-- For `x ≥ 0`, `y > 0`, JavaScript's `x % y` lies in `[0, y)`. -/
theorem jsMod_nonneg_lt (x y : ℝ) (hx : 0 ≤ x) (hy : 0 < y) :
    0 ≤ jsMod x y ∧ jsMod x y < y := by
  unfold jsMod jsTrunc
  rw [if_pos (div_nonneg hx hy.le)]
  have hxy : y * (x / y) = x := by
    field_simp
  have key : x - y * ⌊x / y⌋ = y * Int.fract (x / y) := by
    rw [Int.fract, mul_sub, hxy]
  rw [key]
  refine ⟨mul_nonneg hy.le (Int.fract_nonneg _), ?_⟩
  exact (mul_lt_mul_of_pos_left (Int.fract_lt_one _) hy).trans_eq (mul_one y)

/-- Radians-to-degrees maps `(-π, π]` into `(-180, 180]`. -/
theorem toDeg_bounds (b : ℝ) (h1 : -Real.pi < b) (h2 : b ≤ Real.pi) :
    -180 < toDeg b ∧ toDeg b ≤ 180 := by
  have hpi := Real.pi_pos
  unfold toDeg
  constructor
  · rw [lt_div_iff₀ hpi]
    nlinarith
  · rw [div_le_iff₀ hpi]
    nlinarith

/-- Source `LngLat.prototype.bearingTo` (lines 72–82): initial great-circle bearing,
`atan2` result converted to degrees and normalised by `(brng.toDeg()+360) % 360`. -/
def LngLat.bearingTo (this point : LngLat) : ℝ :=
  let lat1 := toRad this._lat
  let lat2 := toRad point._lat
  let dLon := toRad (point._lon - this._lon)
  let y := Real.sin dLon * Real.cos lat2
  let x := Real.cos lat1 * Real.sin lat2 -
    Real.sin lat1 * Real.cos lat2 * Real.cos dLon
  let brng := atan2 y x
  jsMod (toDeg brng + 360) 360

/-- Claim C6 — for every pair of points, the value returned by `bearingTo` lies in
the half-open interval `[0, 360)`. -/
theorem bearingTo_mem_Ico (p1 p2 : LngLat) :
    0 ≤ p1.bearingTo p2 ∧ p1.bearingTo p2 < 360 := by
  unfold LngLat.bearingTo
  have hr := atan2_range
    (Real.sin (toRad (p2._lon - p1._lon)) * Real.cos (toRad p2._lat))
    (Real.cos (toRad p1._lat) * Real.sin (toRad p2._lat) -
      Real.sin (toRad p1._lat) * Real.cos (toRad p2._lat) *
        Real.cos (toRad (p2._lon - p1._lon)))
  have hdeg := toDeg_bounds _ hr.1 hr.2
  exact jsMod_nonneg_lt _ _ (by linarith [hdeg.1]) (by norm_num)

/-- Source `LngLat.prototype.midpointTo` (lines 114–127): great-circle midpoint; the
result is built by `new LngLat(lon3.toDeg(), lat3.toDeg())`, i.e. with the default
radius 6371, not the receiver's. -/
def LngLat.midpointTo (this point : LngLat) : LngLat :=
  let lat1 := toRad this._lat
  let lon1 := toRad this._lon
  let lat2 := toRad point._lat
  let dLon := toRad (point._lon - this._lon)
  let Bx := Real.cos lat2 * Real.cos dLon
  let By := Real.cos lat2 * Real.sin dLon
  let lat3 := atan2 (Real.sin lat1 + Real.sin lat2)
    (Real.sqrt ((Real.cos lat1 + Bx) * (Real.cos lat1 + Bx) + By * By))
  let lon3 := lon1 + atan2 By (Real.cos lat1 + Bx)
  LngLat.mk (toDeg lon3) (toDeg lat3) 6371

/-- Source `LngLat.prototype.destinationPoint` (lines 140–153) on a numeric distance:
forward great-circle solution; the result is built by
`new LngLat(lon2.toDeg(), lat2.toDeg())`, i.e. with the default radius 6371. -/
def LngLat.destinationPoint (this : LngLat) (brng dist : ℝ) : LngLat :=
  let dist' := dist / this._radius
  let brng' := toRad brng
  let lat1 := toRad this._lat
  let lon1 := toRad this._lon
  let lat2 := Real.arcsin (Real.sin lat1 * Real.cos dist' +
    Real.cos lat1 * Real.sin dist' * Real.cos brng')
  let lon2 := lon1 + atan2 (Real.sin brng' * Real.sin dist' * Real.cos lat1)
    (Real.cos dist' - Real.sin lat1 * Real.sin lat2)
  let lon2' := jsMod (lon2 + 3 * Real.pi) (2 * Real.pi) - Real.pi
  LngLat.mk (toDeg lon2') (toDeg lat2) 6371

/-- Claim C4 (counterexample) — for the concrete point `p` with radius 2, both
`p.midpointTo(p)` and `p.destinationPoint(0, 1)` come back with radius 6371, not
`p`'s radius: the source constructs the results without passing a radius, so the
6371 default applies. -/
theorem midpoint_destination_radius_not_inherited :
    ((LngLat.mk 0 0 2).midpointTo (LngLat.mk 0 0 2))._radius ≠
        (LngLat.mk 0 0 2)._radius ∧
      ((LngLat.mk 0 0 2).destinationPoint 0 1)._radius ≠
        (LngLat.mk 0 0 2)._radius := by
  constructor <;>
    · show (6371 : ℝ) ≠ 2
      norm_num

/-- Claim C4 (amended) — for every point and every argument, the points returned by
`midpointTo` and `destinationPoint` have radius 6371 (the constructor default),
regardless of the receiver's radius. -/
theorem midpoint_destination_radius_default (p q : LngLat) (brng dist : ℝ) :
    (p.midpointTo q)._radius = 6371 ∧ (p.destinationPoint brng dist)._radius = 6371 :=
  ⟨rfl, rfl⟩

/-- The haversine quantity `a` is symmetric in the two points: swapping both latitude
and longitude differences flips the sign under `sin`, which squares away. -/
theorem haversine_a_symm (A B C D : ℝ) :
    Real.sin ((B - A) / 2) * Real.sin ((B - A) / 2) +
        Real.cos A * Real.cos B * Real.sin ((D - C) / 2) * Real.sin ((D - C) / 2) =
      Real.sin ((A - B) / 2) * Real.sin ((A - B) / 2) +
        Real.cos B * Real.cos A * Real.sin ((C - D) / 2) * Real.sin ((C - D) / 2) := by
  rw [show (A - B) / 2 = -((B - A) / 2) by ring,
    show (C - D) / 2 = -((D - C) / 2) by ring, Real.sin_neg, Real.sin_neg]
  ring

/-- Claim C7 (counterexample) — `distanceTo` is not symmetric for points with
different radii: with `p1 = (lon 0, lat 0, radius 0)` and
`p2 = (lon 180, lat 0, radius 1)`, `p1.distanceTo(p2) = "0.0000"` while
`p2.distanceTo(p1) = "3.142"`, because each call scales the central angle by the
receiver's own radius. -/
theorem distanceTo_not_symm_across_radii :
    (LngLat.mk 0 0 0).distanceTo (LngLat.mk 180 0 1) 4 ≠
      (LngLat.mk 180 0 1).distanceTo (LngLat.mk 0 0 0) 4 := by
  have h1 : (LngLat.mk 0 0 0).distanceTo (LngLat.mk 180 0 1) 4 = "0.0000" := by
    unfold LngLat.distanceTo
    dsimp only
    rw [zero_mul, tpfR_zero]
    decide
  have hrad0 : toRad 0 = 0 := by
    unfold toRad
    ring
  have hrad180 : toRad 180 = Real.pi := by
    unfold toRad
    ring
  have h2 : (LngLat.mk 180 0 1).distanceTo (LngLat.mk 0 0 0) 4 = "3.142" := by
    unfold LngLat.distanceTo
    rw [hrad0, hrad180]
    dsimp only
    rw [show ((0 : ℝ) - Real.pi) / 2 = -(Real.pi / 2) by ring]
    simp only [sub_self, zero_div, Real.sin_zero, Real.cos_zero, Real.sin_neg,
      Real.sin_pi_div_two, zero_mul, one_mul, mul_neg, mul_one, neg_neg, neg_mul,
      zero_add, sub_self, Real.sqrt_zero, Real.sqrt_one]
    rw [show atan2 1 0 = Real.pi / 2 by unfold atan2; norm_num,
      show (2 : ℝ) * (Real.pi / 2) = Real.pi by ring, tpfR_pi]
  rw [h1, h2]
  decide

/-- Claim C7 (amended) — `distanceTo` is symmetric whenever the two points share the
same radius (at any common precision): the haversine central angle is symmetric and
each call scales it by the receiver's radius. -/
theorem distanceTo_symm_of_radius_eq (p1 p2 : LngLat) (h : p1._radius = p2._radius)
    (precision : ℕ) : p1.distanceTo p2 precision = p2.distanceTo p1 precision := by
  unfold LngLat.distanceTo
  dsimp only
  rw [h, haversine_a_symm (toRad p1._lat) (toRad p2._lat) (toRad p1._lon)
    (toRad p2._lon)]

/-- Witness for `distanceTo_symm_of_radius_eq` at two concrete points sharing the
default radius. -/
theorem distanceTo_symm_of_radius_eq_witness :
    (LngLat.mk 0 0 6371).distanceTo (LngLat.mk 1 0 6371) 4 =
      (LngLat.mk 1 0 6371).distanceTo (LngLat.mk 0 0 6371) 4 :=
  distanceTo_symm_of_radius_eq (LngLat.mk 0 0 6371) (LngLat.mk 1 0 6371) rfl 4

/-- Model of `isNaN(a/b)` for real `a`, `b`: over the exact reals a quotient is NaN exactly
when it is `0/0` (a nonzero numerator over zero gives ±Infinity, not NaN). -/
def jsDivIsNaN (a b : ℝ) : Prop := a = 0 ∧ b = 0

/-- Source `LngLat.prototype.rhumbDistanceTo` (lines 228–241), transcribed
line by line: `dLat = (point._lat-this._lat).toRad()`,
`dLon = Math.abs(point._lon-this._lon).toRad()`, the Mercator stretch `dPhi`, the
E-W fallback `q`, the antimeridian shortening of `dLon`, and
`Math.sqrt(dLat*dLat + q*q*dLon*dLon) * R` formatted to 4 significant digits. -/
def LngLat.rhumbDistanceTo (this point : LngLat) : String :=
  let R := this._radius
  let lat1 := toRad this._lat
  let lat2 := toRad point._lat
  let dLat := toRad (point._lat - this._lat)
  let dLon0 := toRad |point._lon - this._lon|
  let dPhi := Real.log (Real.tan (lat2 / 2 + Real.pi / 4) /
    Real.tan (lat1 / 2 + Real.pi / 4))
  let q := if ¬jsDivIsNaN dLat dPhi then dLat / dPhi else Real.cos lat1
  let dLon := if dLon0 > Real.pi then 2 * Real.pi - dLon0 else dLon0
  let dist := Real.sqrt (dLat * dLat + q * q * dLon * dLon) * R
  toPrecisionFixedR dist 4

/-- The rhumb-line distance as worded by the spec (§4.3): Mercator-projection
latitude difference `dPhi = ln(tan(lat2/2+π/4)/tan(lat1/2+π/4))`; `q = Δlat/dPhi`
unless that ratio is NaN (pure east-west line), in which case `q = cos(lat1)`; the
absolute longitude difference replaced by `2π − |Δlon|` whenever it exceeds `π`;
distance `R·√(Δlat² + q²·Δlon²)` formatted to 4 significant digits. -/
def rhumbDistanceSpec (this point : LngLat) : String :=
  let lat1 := toRad this._lat
  let lat2 := toRad point._lat
  let dLat := lat2 - lat1
  let dPhi := Real.log (Real.tan (lat2 / 2 + Real.pi / 4) /
    Real.tan (lat1 / 2 + Real.pi / 4))
  let q := if jsDivIsNaN dLat dPhi then Real.cos lat1 else dLat / dPhi
  let dLonAbs := |toRad point._lon - toRad this._lon|
  let dLon := if dLonAbs > Real.pi then 2 * Real.pi - dLonAbs else dLonAbs
  let dist := this._radius * Real.sqrt (dLat * dLat + q * q * (dLon * dLon))
  toPrecisionFixedR dist 4

/-- Degrees-to-radians conversion distributes over subtraction. -/
theorem toRad_sub (a b : ℝ) : toRad (a - b) = toRad a - toRad b := by
  unfold toRad
  ring

/-- Degrees-to-radians conversion commutes with the absolute value. -/
theorem toRad_abs (a : ℝ) : toRad |a| = |toRad a| := by
  unfold toRad
  rw [abs_div, abs_mul, abs_of_nonneg Real.pi_pos.le, abs_of_nonneg
    (by norm_num : (0 : ℝ) ≤ 180)]

/-- Claim C9 — for every two points, `rhumbDistanceTo` computes exactly what the
spec describes: `dPhi = ln(tan(lat2/2+π/4)/tan(lat1/2+π/4))`, `q = Δlat/dPhi` with
the `cos(lat1)` fallback when that ratio is NaN, `|Δlon|` replaced by `2π − |Δlon|`
when it exceeds `π`, and the string `R·√(Δlat² + q²·Δlon²)` at 4 significant
digits. -/
theorem rhumbDistanceTo_refines_spec (p1 p2 : LngLat) :
    p1.rhumbDistanceTo p2 = rhumbDistanceSpec p1 p2 := by
  unfold LngLat.rhumbDistanceTo rhumbDistanceSpec
  dsimp only
  rw [toRad_sub, toRad_abs, toRad_sub]
  have hq : (if ¬jsDivIsNaN (toRad p2._lat - toRad p1._lat)
        (Real.log (Real.tan (toRad p2._lat / 2 + Real.pi / 4) /
          Real.tan (toRad p1._lat / 2 + Real.pi / 4)))
      then (toRad p2._lat - toRad p1._lat) /
        Real.log (Real.tan (toRad p2._lat / 2 + Real.pi / 4) /
          Real.tan (toRad p1._lat / 2 + Real.pi / 4))
      else Real.cos (toRad p1._lat)) =
      (if jsDivIsNaN (toRad p2._lat - toRad p1._lat)
        (Real.log (Real.tan (toRad p2._lat / 2 + Real.pi / 4) /
          Real.tan (toRad p1._lat / 2 + Real.pi / 4)))
      then Real.cos (toRad p1._lat)
      else (toRad p2._lat - toRad p1._lat) /
        Real.log (Real.tan (toRad p2._lat / 2 + Real.pi / 4) /
          Real.tan (toRad p1._lat / 2 + Real.pi / 4))) := by
    split_ifs <;> tauto
  rw [hq, mul_comm]
  congr 2
  ring_nf

end

/-- Whitespace as relevant to JavaScript string trimming and numeric coercion
(space, tab, line feed, carriage return). -/
def isWSChar (c : Char) : Bool :=
  c == ' ' || c == '\t' || c == '\n' || c == '\r'

/-- Source `String.prototype.trim` (polyfill at lines 447–451): strip leading and
trailing whitespace. -/
def trimStr (s : String) : String :=
  String.mk (((s.data.dropWhile isWSChar).reverse.dropWhile isWSChar).reverse)

/-- Numeric value of a decimal digit character. -/
def digitVal (c : Char) : ℕ := c.toNat - 48

/-- Value of a list of decimal digit characters, most significant first. -/
def digitsVal (acc : ℕ) : List Char → ℕ
  | [] => acc
  | c :: cs => digitsVal (10 * acc + digitVal c) cs

/-- Optional exponent part of a decimal literal: `e`/`E`, an optional sign and at
least one digit scale the mantissa `b`; with no digit after the marker the
exponent part is not consumed. Returns the value and the unconsumed input. -/
def parseExpPart (b : ℚ) (r : List Char) : ℚ × List Char :=
  match r with
  | e :: rest =>
    if e == 'e' || e == 'E' then
      let sr : ℤ × List Char :=
        match rest with
        | '+' :: r2 => (1, r2)
        | '-' :: r2 => (-1, r2)
        | r2 => (1, r2)
      let ed := sr.2.takeWhile Char.isDigit
      if ed.isEmpty then (b, r)
      else (b * (10 : ℚ) ^ (sr.1 * (digitsVal 0 ed : ℤ)), sr.2.dropWhile Char.isDigit)
    else (b, r)
  | [] => (b, [])

/-- Mantissa from integer-part digits `ip` and fraction digits `fp`, then the
optional exponent; `none` when there is no digit at all. -/
def mkDec (ip fp r : List Char) : Option (ℚ × List Char) :=
  if ip.isEmpty && fp.isEmpty then none
  else some (parseExpPart
    ((digitsVal 0 ip : ℚ) + (digitsVal 0 fp : ℚ) / (10 : ℚ) ^ fp.length) r)

/-- Longest unsigned-decimal-literal prefix of a character list: digits, an
optional `.` with following digits, an optional exponent. Returns the parsed value
and the unconsumed suffix, or `none` when no digit starts the literal. (The model
of JavaScript's string-to-number primitives for the decimal forms; hexadecimal and
`Infinity` literals are outside the model.) -/
def parseDecLit (cs : List Char) : Option (ℚ × List Char) :=
  let ip := cs.takeWhile Char.isDigit
  match cs.dropWhile Char.isDigit with
  | '.' :: rest => mkDec ip (rest.takeWhile Char.isDigit) (rest.dropWhile Char.isDigit)
  | r1 => mkDec ip [] r1

/-- Model of `parseFloat` on a string: skip leading whitespace, optional sign, then the
longest decimal-literal prefix; trailing garbage is ignored; `none` (NaN) when no
literal starts the string. -/
def parseFloatQ (s : String) : Option ℚ :=
  match s.data.dropWhile isWSChar with
  | '+' :: r => (parseDecLit r).map Prod.fst
  | '-' :: r => (parseDecLit r).map (fun v => -v.1)
  | r => (parseDecLit r).map Prod.fst

/-- The `Number(...)` / unary-`+` coercion of a string: whitespace-trimmed, the
whole remaining string must be a signed decimal literal; the empty string coerces
to 0; anything else is NaN (`none`). -/
def jsToNumberQ (s : String) : Option ℚ :=
  match ((s.data.dropWhile isWSChar).reverse.dropWhile isWSChar).reverse with
  | [] => some 0
  | '+' :: r =>
    match parseDecLit r with
    | some (v, []) => some v
    | _ => none
  | '-' :: r =>
    match parseDecLit r with
    | some (v, []) => some (-v)
    | _ => none
  | r =>
    match parseDecLit r with
    | some (v, []) => some v
    | _ => none

noncomputable section

/-- A dynamically-typed JavaScript value as far as this library inspects one:
a number (`none` = NaN), a string, `undefined`, or any other value. -/
inductive JSVal where
  | num (x : Option ℝ)
  | str (s : String)
  | undef
  | obj

/-- Unary `+` applied to a string, as a real: the `Number(...)` coercion. -/
def jsStrNum (s : String) : Option ℝ := (jsToNumberQ s).map (fun q => (q : ℝ))

/-- The `LngLat` object as built by the source constructor on arbitrary inputs:
`_lat` and `_radius` always hold a number-or-NaN; `_lon` can hold the raw
(unvalidated) longitude argument whenever the latitude argument is a number. -/
structure LngLatJS where
  _lat : Option ℝ
  _lon : JSVal
  _radius : Option ℝ

/-- The source constructor `LngLat(lon, lat, rad)` (lines 26–32). `rad` defaults
to 6371 when undefined. `_lat` accepts a number or a non-empty (post-trim) string
coerced by `+lat`. `_lon` keys on the *latitude* argument's type
(`typeof(lat)=='number' ? lon : ...`): with a numeric latitude the longitude
argument is stored raw; otherwise only a non-empty string longitude is parsed and
anything else (numbers included) becomes NaN. For `_radius` a string radius makes
the source evaluate `trim(lon)` — a free identifier that is not defined anywhere —
raising a ReferenceError, modelled as `Except.error ()`. -/
def jsConstruct (lon lat rad : JSVal) : Except Unit LngLatJS :=
  let rad' := match rad with
    | .undef => JSVal.num (some 6371)
    | r => r
  let latF : Option ℝ := match lat with
    | .num x => x
    | .str s => if trimStr s ≠ "" then jsStrNum s else none
    | _ => none
  let lonF : JSVal := match lat with
    | .num _ => lon
    | _ => JSVal.num (match lon with
        | .str s => if trimStr s ≠ "" then jsStrNum s else none
        | _ => none)
  match rad' with
  | .num x => Except.ok ⟨latF, lonF, x⟩
  | .str _ => Except.error ()
  | _ => Except.ok ⟨latF, lonF, none⟩

/-- The `Number(...)` coercion of the concrete string `"10"` is the number 10. -/
theorem jsToNumberQ_ten : jsToNumberQ "10" = some 10 := by
  have h : jsToNumberQ "10" = some (((digitsVal 0 ['1', '0'] : ℕ) : ℚ) +
      ((digitsVal 0 [] : ℕ) : ℚ) / (10 : ℚ) ^ ([] : List Char).length) := rfl
  rw [h, show digitsVal 0 ['1', '0'] = 10 from rfl,
    show digitsVal 0 ([] : List Char) = 0 from rfl]
  norm_num

/-- Claim C2 (counterexample) — a numeric longitude paired with a (numeric) string
latitude does NOT store the numeric longitude: `LngLat(20, "10")` stores latitude
10 but longitude NaN, because the longitude ternary tests `typeof(lat)`, not
`typeof(lon)`. -/
theorem construct_numeric_lon_string_lat_stores_nan :
    jsConstruct (JSVal.num (some 20)) (JSVal.str "10") JSVal.undef =
        Except.ok ⟨some 10, JSVal.num none, some 6371⟩ ∧
      JSVal.num none ≠ JSVal.num (some 20) := by
  constructor
  · unfold jsConstruct jsStrNum
    dsimp only
    rw [if_pos (by decide : trimStr "10" ≠ ""), jsToNumberQ_ten]
    norm_num
  · simp

/-- Claim C2 (amended) — the latitude field is validated independently (number kept,
non-empty post-trim string coerced, otherwise NaN), but the longitude field keys on
the latitude argument's type: with a numeric latitude the longitude argument is
stored raw and unvalidated; otherwise only a string longitude is parsed and any
other longitude (numbers included) is stored as NaN. Holds whenever the radius
argument is not a string (a string radius raises instead). -/
theorem construct_lat_independent_lon_entangled (lon lat rad : JSVal)
    (h : ∀ s, rad ≠ JSVal.str s) :
    (jsConstruct lon lat rad).map LngLatJS._lat =
        Except.ok (match lat with
          | .num x => x
          | .str s => if trimStr s ≠ "" then jsStrNum s else none
          | _ => none) ∧
      (jsConstruct lon lat rad).map LngLatJS._lon =
        Except.ok (match lat with
          | .num _ => lon
          | _ => JSVal.num (match lon with
              | .str s => if trimStr s ≠ "" then jsStrNum s else none
              | _ => none)) := by
  cases rad with
  | num x => exact ⟨rfl, rfl⟩
  | str s => exact absurd rfl (h s)
  | undef => exact ⟨rfl, rfl⟩
  | obj => exact ⟨rfl, rfl⟩

/-- Witness for `construct_lat_independent_lon_entangled` at
`LngLat(20, "10", undefined)`: the stored longitude is NaN. -/
theorem construct_lat_independent_lon_entangled_witness :
    (jsConstruct (JSVal.num (some 20)) (JSVal.str "10") JSVal.undef).map
      LngLatJS._lon = Except.ok (JSVal.num none) := by
  have h := construct_lat_independent_lon_entangled (JSVal.num (some 20))
    (JSVal.str "10") JSVal.undef (fun s hs => JSVal.noConfusion hs)
  exact h.2

/-- A point whose latitude/longitude may be NaN (`none`), as produced when a NaN
input propagates through a destination computation into the result's fields. -/
structure LngLatN where
  _lon : Option ℝ
  _lat : Option ℝ
  _radius : ℝ

/-- Source `LngLat.prototype.rhumbDestinationPoint` (lines 268–284) on a numeric
distance: forward rhumb-line solution with the E-W `q` fallback, pole reflection of
the latitude, and longitude normalised to `[-180, 180]`; the result is built with
the default radius 6371. -/
def LngLat.rhumbDestinationPoint (this : LngLat) (brng dist : ℝ) : LngLat :=
  let R := this._radius
  let d := dist / R
  let lat1 := toRad this._lat
  let lon1 := toRad this._lon
  let brng' := toRad brng
  let lat2 := lat1 + d * Real.cos brng'
  let dLat := lat2 - lat1
  let dPhi := Real.log (Real.tan (lat2 / 2 + Real.pi / 4) /
    Real.tan (lat1 / 2 + Real.pi / 4))
  let q := if ¬jsDivIsNaN dLat dPhi then dLat / dPhi else Real.cos lat1
  let dLon := d * Real.sin brng' / q
  let lat2' := if |lat2| > Real.pi / 2 then
      (if lat2 > 0 then Real.pi - lat2 else -(Real.pi - lat2))
    else lat2
  let lon2 := jsMod (lon1 + dLon + 3 * Real.pi) (2 * Real.pi) - Real.pi
  LngLat.mk (toDeg lon2) (toDeg lat2') 6371

/-- The strict whole-string distance coercion of `destinationPoint` (source line
141): `typeof(dist)=='number' ? dist : typeof(dist)=='string' && dist.trim()!='' ?
+dist : NaN`. -/
def coerceStrictDist (dist : JSVal) : Option ℝ :=
  match dist with
  | .num x => x
  | .str s => if trimStr s ≠ "" then jsStrNum s else none
  | _ => none

/-- The distance coercion of `rhumbDestinationPoint` (source line 270):
`parseFloat(dist)`, a longest-numeric-prefix parse (non-string values behave as
their string form: numbers parse back to themselves, NaN/undefined/objects give
NaN). -/
def coerceParseFloatDist (dist : JSVal) : Option ℝ :=
  match dist with
  | .num x => x
  | .str s => (parseFloatQ s).map (fun q => (q : ℝ))
  | _ => none

/-- Wrapper for `destinationPoint` on a dynamically-typed distance argument: a NaN distance
poisons both result coordinates (`asin(NaN)`, `atan2` of NaN), while the result
radius is the 6371 constructor default either way. -/
def LngLat.destinationPointJ (this : LngLat) (brng : ℝ) (dist : JSVal) : LngLatN :=
  match coerceStrictDist dist with
  | none => ⟨none, none, 6371⟩
  | some d => ⟨some (this.destinationPoint brng d)._lon,
      some (this.destinationPoint brng d)._lat, 6371⟩

/-- Wrapper for `rhumbDestinationPoint` on a dynamically-typed distance argument: a NaN
`parseFloat` result poisons both coordinates, otherwise the pure rhumb-line
forward solution runs on the parsed prefix value. -/
def LngLat.rhumbDestinationPointJ (this : LngLat) (brng : ℝ) (dist : JSVal) :
    LngLatN :=
  match coerceParseFloatDist dist with
  | none => ⟨none, none, 6371⟩
  | some d => ⟨some (this.rhumbDestinationPoint brng d)._lon,
      some (this.rhumbDestinationPoint brng d)._lat, 6371⟩

/-- Evaluation: `parseFloat("12abc")` parses the numeric prefix and yields 12. -/
theorem parseFloatQ_twelve_abc : parseFloatQ "12abc" = some 12 := by
  have h : parseFloatQ "12abc" = some (((digitsVal 0 ['1', '2'] : ℕ) : ℚ) +
      ((digitsVal 0 [] : ℕ) : ℚ) / (10 : ℚ) ^ ([] : List Char).length) := rfl
  rw [h, show digitsVal 0 ['1', '2'] = 12 from rfl,
    show digitsVal 0 ([] : List Char) = 0 from rfl]
  norm_num

/-- Claim C10 — `rhumbDestinationPoint` parses its distance with the
leading-numeric-prefix `parseFloat`, so `"12abc"` is treated as 12 and yields a
real (non-NaN) destination point; `destinationPoint` applies the strict
whole-string coercion, mapping the same string to NaN and returning a point with
NaN coordinates. The two destination operations accept different string inputs. -/
theorem destination_ops_accept_different_strings :
    coerceParseFloatDist (JSVal.str "12abc") = some 12 ∧
      coerceStrictDist (JSVal.str "12abc") = none ∧
      ((LngLat.mk 0 0 6371).rhumbDestinationPointJ 90
        (JSVal.str "12abc"))._lat.isSome = true ∧
      ((LngLat.mk 0 0 6371).rhumbDestinationPointJ 90
        (JSVal.str "12abc"))._lon.isSome = true ∧
      (LngLat.mk 0 0 6371).destinationPointJ 90 (JSVal.str "12abc") =
        ⟨none, none, 6371⟩ := by
  have hpf : coerceParseFloatDist (JSVal.str "12abc") = some 12 := by
    unfold coerceParseFloatDist
    dsimp only
    rw [parseFloatQ_twelve_abc]
    norm_num
  have hstrict : coerceStrictDist (JSVal.str "12abc") = none := by
    unfold coerceStrictDist jsStrNum
    dsimp only
    rw [if_pos (by decide : trimStr "12abc" ≠ ""),
      show jsToNumberQ "12abc" = none from rfl]
    rfl
  refine ⟨hpf, hstrict, ?_, ?_, ?_⟩
  · unfold LngLat.rhumbDestinationPointJ
    rw [hpf]
    rfl
  · unfold LngLat.rhumbDestinationPointJ
    rw [hpf]
    rfl
  · unfold LngLat.destinationPointJ
    rw [hstrict]

/-- NaN-propagating lift of a binary real operation (`none` = NaN). -/
def omap2 (f : ℝ → ℝ → ℝ) : Option ℝ → Option ℝ → Option ℝ
  | some x, some y => some (f x y)
  | _, _ => none

/-- NaN-propagating lift of a ternary real operation (`none` = NaN). -/
def omap3 (f : ℝ → ℝ → ℝ → ℝ) : Option ℝ → Option ℝ → Option ℝ → Option ℝ
  | some x, some y, some z => some (f x y z)
  | _, _, _ => none

/-- Model of `Math.sqrt` with the NaN of a negative argument made explicit. -/
def jsSqrtO (x : ℝ) : Option ℝ := if x < 0 then none else some (Real.sqrt x)

/-- Model of `Math.asin` with the NaN outside `[-1, 1]` made explicit, NaN-propagating. -/
def jsAsinO (o : Option ℝ) : Option ℝ :=
  o.bind fun x => if x < -1 ∨ 1 < x then none else some (Real.arcsin x)

/-- Model of `Math.acos` with the NaN outside `[-1, 1]` made explicit, NaN-propagating. -/
def jsAcosO (o : Option ℝ) : Option ℝ :=
  o.bind fun x => if x < -1 ∨ 1 < x then none else some (Real.arccos x)

/-- A JavaScript quotient that is only ever fed into `acos`: a zero denominator
yields ±Infinity or NaN, each of which `acos` maps to NaN, so the quotient is
modelled as `none` exactly when the denominator is zero. -/
def jsDivO (x y : ℝ) : Option ℝ := if y = 0 then none else some (x / y)

/-- Term `dist12` of `LngLat.intersection` (source lines 175–176):
`2*Math.asin(Math.sqrt(sin²(dLat/2) + cos lat1 · cos lat2 · sin²(dLon/2)))`,
NaN (`none`) when the radicand is negative or the root exceeds 1. -/
def interDist12 (p1 p2 : LngLat) : Option ℝ :=
  let lat1 := toRad p1._lat
  let lat2 := toRad p2._lat
  let dLat := lat2 - lat1
  let dLon := toRad p2._lon - toRad p1._lon
  (jsSqrtO (Real.sin (dLat / 2) * Real.sin (dLat / 2) +
      Real.cos lat1 * Real.cos lat2 * Real.sin (dLon / 2) * Real.sin (dLon / 2))).bind
    (fun s => (jsAsinO (some s)).map (fun v => 2 * v))

/-- Term `brngA` of `LngLat.intersection` (source lines 180–182), including the
`if (isNaN(brngA)) brngA = 0` rounding guard (`Option.getD 0`). -/
def interBrngA (p1 p2 : LngLat) : ℝ :=
  let lat1 := toRad p1._lat
  let lat2 := toRad p2._lat
  ((interDist12 p1 p2).bind (fun d => jsAcosO (jsDivO
    (Real.sin lat2 - Real.sin lat1 * Real.cos d)
    (Real.sin d * Real.cos lat1)))).getD 0

/-- Term `brngB` of `LngLat.intersection` (source lines 183–184); unlike `brngA` it has
no NaN guard, so a NaN here propagates. -/
def interBrngB (p1 p2 : LngLat) : Option ℝ :=
  let lat1 := toRad p1._lat
  let lat2 := toRad p2._lat
  (interDist12 p1 p2).bind (fun d => jsAcosO (jsDivO
    (Real.sin lat1 - Real.sin lat2 * Real.cos d)
    (Real.sin d * Real.cos lat2)))

/-- Term `brng12` (source lines 186–192): branch on the sign of `sin(lon2-lon1)`. -/
def interBrng12 (p1 p2 : LngLat) : ℝ :=
  if Real.sin (toRad p2._lon - toRad p1._lon) > 0 then interBrngA p1 p2
  else 2 * Real.pi - interBrngA p1 p2

/-- Term `brng21` (source lines 186–192): branch on the sign of `sin(lon2-lon1)`. -/
def interBrng21 (p1 p2 : LngLat) : Option ℝ :=
  if Real.sin (toRad p2._lon - toRad p1._lon) > 0 then
    (interBrngB p1 p2).map (fun b => 2 * Real.pi - b)
  else interBrngB p1 p2

/-- Term `alpha1` (source line 194): `(brng13 - brng12 + π) % (2π) - π`, NaN when the
first path's bearing is NaN. -/
def interAlpha1 (p1 : LngLat) (brng1 : Option ℝ) (p2 : LngLat) : Option ℝ :=
  brng1.map (fun b1 =>
    jsMod (toRad b1 - interBrng12 p1 p2 + Real.pi) (2 * Real.pi) - Real.pi)

/-- Term `alpha2` (source line 195): `(brng21 - brng23 + π) % (2π) - π`, NaN when
either `brng21` or the second path's bearing is NaN. -/
def interAlpha2 (p1 p2 : LngLat) (brng2 : Option ℝ) : Option ℝ :=
  omap2 (fun b21 b2 => jsMod (b21 - toRad b2 + Real.pi) (2 * Real.pi) - Real.pi)
    (interBrng21 p1 p2) brng2

/-- Source `LngLat.intersection` (lines 167–216) on two points and already-coerced
bearings (`none` = NaN). Returns the `null` sentinel (`none`) when `dist12 == 0`,
when `sin(alpha1)` and `sin(alpha2)` are both zero (infinite intersections), or
when their product is negative (ambiguous intersection); a NaN `sin` value fails
both comparisons, exactly as in JavaScript. Otherwise it returns a point (built
with the default radius 6371) whose coordinates solve the spherical triangle, NaN
coordinates included when a NaN propagated past the guards. -/
def LngLat.intersection (p1 : LngLat) (brng1 : Option ℝ) (p2 : LngLat)
    (brng2 : Option ℝ) : Option LngLatN :=
  if interDist12 p1 p2 = some 0 then none
  else if (interAlpha1 p1 brng1 p2).elim False (fun a => Real.sin a = 0) ∧
      (interAlpha2 p1 p2 brng2).elim False (fun a => Real.sin a = 0) then none
  else if (omap2 (fun a b => Real.sin a * Real.sin b) (interAlpha1 p1 brng1 p2)
      (interAlpha2 p1 p2 brng2)).elim False (fun v => v < 0) then none
  else
    let lat1 := toRad p1._lat
    let lon1 := toRad p1._lon
    let alpha1 := interAlpha1 p1 brng1 p2
    let alpha2 := interAlpha2 p1 p2 brng2
    let brng13 := brng1.map toRad
    let alpha3 := jsAcosO (omap3 (fun a1 a2 d =>
        -Real.cos a1 * Real.cos a2 + Real.sin a1 * Real.sin a2 * Real.cos d)
      alpha1 alpha2 (interDist12 p1 p2))
    let dist13 := omap2 atan2
      (omap3 (fun d a1 a2 => Real.sin d * Real.sin a1 * Real.sin a2)
        (interDist12 p1 p2) alpha1 alpha2)
      (omap3 (fun a2 a1 a3 => Real.cos a2 + Real.cos a1 * Real.cos a3)
        alpha2 alpha1 alpha3)
    let lat3 := jsAsinO (omap2 (fun d13 b13 =>
        Real.sin lat1 * Real.cos d13 + Real.cos lat1 * Real.sin d13 * Real.cos b13)
      dist13 brng13)
    let dLon13 := omap2 atan2
      (omap2 (fun b13 d13 => Real.sin b13 * Real.sin d13 * Real.cos lat1)
        brng13 dist13)
      (omap2 (fun d13 l3 => Real.cos d13 - Real.sin lat1 * Real.sin l3)
        dist13 lat3)
    let lon3 := dLon13.map (fun dl =>
      jsMod (lon1 + dl + Real.pi) (2 * Real.pi) - Real.pi)
    some ⟨lon3.map toDeg, lat3.map toDeg, 6371⟩

/-- Claim C8 — `intersection` (with numeric bearings) returns the `null` sentinel
exactly in the three degenerate situations: zero angular distance between the
points (`dist12 == 0`), both path angles `alpha1`, `alpha2` with sine zero
(collinear, infinite intersections), or `sin(alpha1)` and `sin(alpha2)` of
opposite signs (ambiguous intersection); in every other case it returns a
point. -/
theorem intersection_none_iff (p1 p2 : LngLat) (b1 b2 : ℝ) :
    LngLat.intersection p1 (some b1) p2 (some b2) = none ↔
      interDist12 p1 p2 = some 0 ∨
        ((interAlpha1 p1 (some b1) p2).elim False (fun a => Real.sin a = 0) ∧
          (interAlpha2 p1 p2 (some b2)).elim False (fun a => Real.sin a = 0)) ∨
        (omap2 (fun a b => Real.sin a * Real.sin b) (interAlpha1 p1 (some b1) p2)
          (interAlpha2 p1 p2 (some b2))).elim False (fun v => v < 0) := by
  unfold LngLat.intersection
  split_ifs with h1 h2 h3 <;> simp_all

/-- The full `LngLat.intersection` entry point on dynamically-typed bearings
(source lines 168–169): each bearing goes through
`typeof brng=='number' ? brng : typeof brng=='string' && trim(brng)!='' ? +brng : NaN`.
For a string bearing this evaluates the free identifier `trim` — no such function
is defined anywhere in scope — so a ReferenceError is raised (`.error ()`); any
other non-number becomes NaN. -/
def LngLat.intersectionJ (p1 : LngLat) (brng1 : JSVal) (p2 : LngLat)
    (brng2 : JSVal) : Except Unit (Option LngLatN) :=
  match brng1 with
  | .str _ => Except.error ()
  | _ =>
    match brng2 with
    | .str _ => Except.error ()
    | _ =>
      Except.ok (LngLat.intersection p1
        (match brng1 with | .num x => x | _ => none) p2
        (match brng2 with | .num x => x | _ => none))

/-- Claim C3 (code bug) — contrary to the spec's no-exception contract, a string
radius makes the constructor evaluate `trim(lon)` and a string bearing makes
`intersection` evaluate `trim(brng1)`; `trim` is an unbound identifier (only
`String.prototype.trim` is defined), so both raise a ReferenceError instead of
coercing to NaN. -/
theorem string_radius_and_string_bearing_raise :
    jsConstruct (JSVal.num (some 0)) (JSVal.num (some 0)) (JSVal.str "6371") =
        Except.error () ∧
      LngLat.intersectionJ (LngLat.mk 0 0 6371) (JSVal.str "45")
        (LngLat.mk 1 1 6371) (JSVal.num (some 90)) = Except.error () :=
  ⟨rfl, rfl⟩

end
